import Mathlib

/-
  Verification of the gesture-driven selection and manipulation engine of the
  SpaceMusic repository.

  The embedding below follows the source files:
  - src/unnamed/part_009 (useHandTracking: gesture classifier), and
  - src/unnamed/part_004 (SpaceScene: candidate finder, lock state machine,
    SoundOrb: grab/release and orbital motion controller),
  - src/unnamed/part_002 (App: grabbedOrbs map, setGrabbedOrbId).

  Real-valued quantities produced by the code (screen distances, times,
  thresholds) are modelled over ℚ where the source uses no irrational
  functions, and over ℝ (with Real.sqrt and Real.pi) where it does.
-/

set_option maxHeartbeats 1000000

namespace SpaceMusic

/-! ## Lock-acquisition state machine (src/unnamed/part_004, lines 1819-1920) -/

/-- Orb ids are opaque; we model them as naturals. -/
abbrev OrbId := ℕ

/-- Player ids are opaque; we model them as naturals. -/
abbrev PlayerId := ℕ

/-- part_004 line 1822: `LOCK_TIME = 250` milliseconds to lock onto a planet. -/
def LOCK_TIME : ℚ := 250

/-- part_004 line 1874: `unlockThreshold = 0.3`, the screen-distance threshold
above which a locked planet loses its lock. -/
def unlockThreshold : ℚ := 0.3

/-- part_004 lines 1791-1797: the dynamic selection (acquisition) threshold,
as a function of the planet's visual size and its distance from the camera:
`Math.min(0.35, 0.20 + planetSize * 0.10) * Math.max(0.5, 20 / distFromCamera)`. -/
def selectionThreshold (planetSize distFromCamera : ℚ) : ℚ :=
  let baseThreshold : ℚ := 0.20
  let sizeBonus := planetSize * 0.10
  let distanceFactor := max 0.5 (20 / distFromCamera)
  min 0.35 (baseThreshold + sizeBonus) * distanceFactor

/-- The mutable refs of the lock system (part_004 lines 1823-1828):
`lockedOrbRef`, `lockCandidateRef`, `lockStartTimeRef`, `closestOrbRef`. -/
structure LockState where
  locked : Option OrbId
  candidate : Option OrbId
  start : ℚ
  closest : Option OrbId
deriving DecidableEq

/-- Per-frame inputs of the lock `useFrame` callback (part_004 lines 1831-1920).
`currentClosest` models the result of `getClosestOrbForHand` (computed at line
1857), `lockedOrbActive` models `lockedOrb && lockedOrb.active` (line 1863),
and `lockedDist` models the cursor-to-locked-orb screen distance computed at
lines 1864-1871. -/
structure LockInput where
  grabbedOrbId : Option OrbId
  isTracking : Bool
  cameraModeCamera : Bool
  now : ℚ
  currentClosest : Option OrbId
  lockedOrbActive : Bool
  lockedDist : ℚ
deriving DecidableEq

/-- One run of the lock `useFrame` body (part_004 lines 1831-1920), as a pure
state transformer.  The branch order mirrors the source exactly:
the `grabbedOrbId` early return (lines 1839-1845) comes before the
`!isTracking || cameraMode` early return (lines 1848-1854); then the locked /
unlocked cases with the `unlockThreshold` check (lines 1860-1916). -/
def lockFrame (s : LockState) (i : LockInput) : LockState :=
  match i.grabbedOrbId with
  | some g => { locked := some g, candidate := none, start := s.start, closest := some g }
  | none =>
    if !i.isTracking || i.cameraModeCamera then
      { locked := none, candidate := none, start := s.start, closest := none }
    else
      match s.locked with
      | some l =>
        if i.lockedOrbActive then
          if i.lockedDist > unlockThreshold then
            { locked := none, candidate := i.currentClosest, start := i.now, closest := none }
          else
            { locked := some l, candidate := s.candidate, start := s.start, closest := some l }
        else
          { locked := none, candidate := i.currentClosest, start := i.now, closest := none }
      | none =>
        match i.currentClosest with
        | some c =>
          if s.candidate = some c then
            if LOCK_TIME ≤ i.now - s.start then
              { locked := some c, candidate := none, start := s.start, closest := some c }
            else
              { locked := none, candidate := some c, start := s.start, closest := some c }
          else
            { locked := none, candidate := some c, start := i.now, closest := some c }
        | none => { locked := none, candidate := none, start := s.start, closest := none }

/-! ## SoundOrb grab/release detection (src/unnamed/part_004, lines 2464-2495;
the first SoundOrb variant, lines 968-1009, has the identical structure) -/

/-- Per-frame inputs of the SoundOrb grab/release block. `isLocked` models
`lockedOrbRef?.current === orb.id` and `cameraModeCamera` models
`cameraMode === 'camera'` (the early return at line 2475). -/
structure GrabInput where
  isTracking : Bool
  orbActive : Bool
  isPinching : Bool
  isLocked : Bool
  cameraModeCamera : Bool
deriving DecidableEq

/-- Effect of one SoundOrb frame on the grab state: the grabbed-orb value for
this player after the frame, and whether `updateOrbPosition` was called
(persisting the last interpolated position). -/
structure GrabEffect where
  grabbedAfter : Option OrbId
  positionPersisted : Bool
deriving DecidableEq

/-- The grab/release detection of the SoundOrb `useFrame` (part_004 lines
2474-2495): early return in camera mode; otherwise the whole block is gated by
`isTracking && orb.active`; grab when `isPinching && canGrab && !isGrabbed`
with `canGrab = isLocked || isGrabbed`; release (with position persistence via
`updateOrbPosition`) when `!isPinching && isGrabbed`. -/
def grabFrame (oid : OrbId) (grabbed : Option OrbId) (i : GrabInput) : GrabEffect :=
  let isGrabbed := grabbed == some oid
  if i.cameraModeCamera then { grabbedAfter := grabbed, positionPersisted := false }
  else if i.isTracking && i.orbActive then
    if i.isPinching && (i.isLocked || isGrabbed) && !isGrabbed then
      { grabbedAfter := some oid, positionPersisted := false }
    else if !i.isPinching && isGrabbed then
      { grabbedAfter := none, positionPersisted := true }
    else { grabbedAfter := grabbed, positionPersisted := false }
  else { grabbedAfter := grabbed, positionPersisted := false }

/-! ## Candidate finder (src/unnamed/part_004, lines 1762-1817) -/

/-- One orb as seen by `getClosestOrbForHand`.  `screenDist` models the
cursor-to-projected-orb screen distance computed at lines 1783-1789,
`projZ` the NDC depth `projected.z` of line 1777, and `distFromCamera`
the value `orbPos.distanceTo(camera.position)` of line 1793; these are the
camera-projection outputs the function branches on. -/
structure OrbInfo where
  oid : OrbId
  active : Bool
  screenDist : ℚ
  projZ : ℚ
  planetSize : ℚ
  distFromCamera : ℚ
deriving DecidableEq

/-- The combined score of part_004 lines 1802-1808:
`score = screenDist + distFromCamera / 50`. -/
def orbScore (o : OrbInfo) : ℚ := o.screenDist + o.distFromCamera / 50

/-- One iteration of the `orbs.forEach` loop of `getClosestOrbForHand`
(part_004 lines 1768-1814), threading the `(closest, minScore)` accumulator.
`none` models the initial `closest = null, minScore = Infinity` (any score
beats Infinity).  Guards in source order: `!orb.active` (1769), exclusion
(1770), behind-camera / frustum (1781), selection threshold (1800), then the
strict score comparison (1810). -/
def considerOrb (excl : List OrbId) (acc : Option (OrbId × ℚ)) (o : OrbInfo) :
    Option (OrbId × ℚ) :=
  if o.active = false then acc
  else if o.oid ∈ excl then acc
  else if 1 < o.projZ ∨ o.projZ < -1 then acc
  else if selectionThreshold o.planetSize o.distFromCamera ≤ o.screenDist then acc
  else
    match acc with
    | none => some (o.oid, orbScore o)
    | some (bid, bscore) =>
      if orbScore o < bscore then some (o.oid, orbScore o) else some (bid, bscore)

/-- `getClosestOrbForHand` (part_004 lines 1764-1817): fold the per-orb loop
over the orb list and return the winning id, or none. -/
def getClosestOrbForHand (orbs : List OrbInfo) (excl : List OrbId) : Option OrbId :=
  (orbs.foldl (considerOrb excl) none).map Prod.fst

/-! ## Grabbed-orbs map (src/unnamed/part_002, lines 395-408) -/

/-- The `grabbedOrbs` object (player id → grabbed orb id), as an association
list. -/
abbrev GrabbedMap := List (PlayerId × OrbId)

/-- `setGrabbedOrbId` (part_002 lines 396-408): releasing (`orbId === null`)
removes this player's entry; grabbing overwrites this player's entry with the
new orb id, leaving other players' entries untouched. -/
def setGrabbedOrbId (m : GrabbedMap) (p : PlayerId) (o : Option OrbId) : GrabbedMap :=
  match o with
  | none => m.filter (fun pr => pr.1 != p)
  | some oid => (p, oid) :: m.filter (fun pr => pr.1 != p)

/-- No orb id is held by two distinct players: the exclusivity invariant on
the `grabbedOrbs` map. -/
def ExclusiveGrabs (m : GrabbedMap) : Prop :=
  ∀ p₁ p₂ o, (p₁, o) ∈ m → (p₂, o) ∈ m → p₁ = p₂

/-! ## Orbital motion controller (src/unnamed/part_004, SoundOrb) -/

noncomputable section

/-- part_004 line 2455 (and 962): `MIN_ORBIT_RADIUS = 2.0`. -/
def MIN_ORBIT_RADIUS : ℝ := 2.0

/-- part_004 line 2456 (and 963): `MAX_ORBIT_RADIUS = 12`. -/
def MAX_ORBIT_RADIUS : ℝ := 12

/-- part_004 line 1015 (first SoundOrb variant): while grabbed, the cursor
depth `handPosition.z` maps to the target orbital radius via
`MIN_ORBIT_RADIUS + handPosition.z * (MAX_ORBIT_RADIUS - MIN_ORBIT_RADIUS)`. -/
def grabTargetRadius (z : ℝ) : ℝ :=
  MIN_ORBIT_RADIUS + z * (MAX_ORBIT_RADIUS - MIN_ORBIT_RADIUS)

/-- part_004 line 2519 (raycast SoundOrb variant): the radius of the cursor's
intersection with the orbital plane, clamped to the valid orbit range via
`Math.max(MIN_ORBIT_RADIUS, Math.min(MAX_ORBIT_RADIUS, targetDist))`. -/
def clampedRadius (targetDist : ℝ) : ℝ :=
  max MIN_ORBIT_RADIUS (min MAX_ORBIT_RADIUS targetDist)

/-- The angle-difference normalization of `lerpAngle` (part_004 lines
2537-2543): `while (diff > PI) diff -= 2*PI; while (diff < -PI) diff += 2*PI`,
as a closed form.  The first loop runs `⌈(d - π)/(2π)⌉` times exactly when
`d > π` (smallest iteration count landing at or below `π`), and then the
second loop does not run; symmetrically for `d < -π`; otherwise neither loop
runs and `d` is returned unchanged. -/
def normalizeAngleDiff (d : ℝ) : ℝ :=
  if Real.pi < d then d - Real.pi * 2 * ⌈(d - Real.pi) / (Real.pi * 2)⌉
  else if d < -Real.pi then d + Real.pi * 2 * ⌈(-Real.pi - d) / (Real.pi * 2)⌉
  else d

/-- `lerpAngle` (part_004 lines 2537-2543): normalize the difference and
advance by the fraction `t` of it. -/
def lerpAngle (current target t : ℝ) : ℝ :=
  current + normalizeAngleDiff (target - current) * t

end

/-- The closed form really is the loop result: the first-loop count `⌈x⌉`
satisfies `x ≤ ⌈x⌉ < x + 1`, which places `normalizeAngleDiff d` in
`(-π, π]` when `d > π`, in `[-π, π)` when `d < -π`, and leaves `d ∈ [-π, π]`
unchanged otherwise.  Jointly: the result always lies in `[-π, π]`. -/
theorem normalizeAngleDiff_mem_Icc (d : ℝ) :
    normalizeAngleDiff d ∈ Set.Icc (-Real.pi) Real.pi := by
  have hpi : (0 : ℝ) < Real.pi := Real.pi_pos
  unfold normalizeAngleDiff
  split_ifs with h1 h2
  · set x : ℝ := (d - Real.pi) / (Real.pi * 2) with hx
    have hx0 : 0 < x := div_pos (by linarith) (by linarith)
    have hle : x ≤ (⌈x⌉ : ℝ) := Int.le_ceil x
    have hlt : (⌈x⌉ : ℝ) < x + 1 := Int.ceil_lt_add_one x
    have hmul : Real.pi * 2 * x = d - Real.pi := by
      rw [hx]; field_simp
    constructor
    · nlinarith
    · nlinarith
  · set x : ℝ := (-Real.pi - d) / (Real.pi * 2) with hx
    have hx0 : 0 < x := div_pos (by linarith) (by linarith)
    have hle : x ≤ (⌈x⌉ : ℝ) := Int.le_ceil x
    have hlt : (⌈x⌉ : ℝ) < x + 1 := Int.ceil_lt_add_one x
    have hmul : Real.pi * 2 * x = -Real.pi - d := by
      rw [hx]; field_simp
    constructor
    · nlinarith
    · nlinarith
  · exact ⟨by linarith [not_lt.mp h2], by linarith [not_lt.mp h1]⟩

/-- The normalization only shifts by whole turns: the result differs from the
input by an integer multiple of `2π`. -/
theorem normalizeAngleDiff_sub_int_mul (d : ℝ) :
    ∃ k : ℤ, normalizeAngleDiff d = d - Real.pi * 2 * k := by
  unfold normalizeAngleDiff
  split_ifs with h1 h2
  · exact ⟨⌈(d - Real.pi) / (Real.pi * 2)⌉, rfl⟩
  · refine ⟨-⌈(-Real.pi - d) / (Real.pi * 2)⌉, ?_⟩
    push_cast
    ring
  · exact ⟨0, by norm_num⟩

/-! ## Gesture classifier (src/unnamed/part_009, useHandTracking) -/

open scoped Classical

/-- One MediaPipe landmark: normalized camera coordinates. -/
structure Pt where
  x : ℝ
  y : ℝ
  z : ℝ

/-- A HandFrame: 21 ordered 3D landmark points. -/
abbrev Hand := Fin 21 → Pt

/-- The smoothed cursor (`lastPositionRef` / `handPosition`). -/
structure Cursor where
  x : ℝ
  y : ℝ
  z : ℝ

/-- part_009 line 35: `LERP_FACTOR = 0.35`. -/
def LERP_FACTOR : ℝ := 0.35

/-- part_009 line 36: `LERP_FACTOR_DEPTH = 0.2`. -/
def LERP_FACTOR_DEPTH : ℝ := 0.2

/-- part_009 line 37: `PINCH_THRESHOLD = 0.08`. -/
def PINCH_THRESHOLD : ℝ := 0.08

/-- part_009 line 41: `MIN_HAND_SIZE = 0.10`. -/
def MIN_HAND_SIZE : ℝ := 0.10

/-- part_009 line 42: `MAX_HAND_SIZE = 0.40`. -/
def MAX_HAND_SIZE : ℝ := 0.40

/-- part_009 lines 44-46: `lerp(current, target, factor)`. -/
def lerp (current target factor : ℝ) : ℝ := current + (target - current) * factor

noncomputable section

/-- part_009 lines 48-54: 3D Euclidean distance between two landmarks. -/
def distance3D (p1 p2 : Pt) : ℝ :=
  Real.sqrt ((p1.x - p2.x) ^ 2 + (p1.y - p2.y) ^ 2 + (p1.z - p2.z) ^ 2)

/-- part_009 lines 56-61: 2D Euclidean distance between two landmarks. -/
def distance2D (p1 p2 : Pt) : ℝ :=
  Real.sqrt ((p1.x - p2.x) ^ 2 + (p1.y - p2.y) ^ 2)

/-- part_009 lines 70-97: the combined apparent hand size (weighted mix of
palm width, hand length, and the bounding-box diagonal of five key
landmarks). -/
def combinedHandSize (hand : Hand) : ℝ :=
  let wrist := hand 0
  let middleTip := hand 12
  let handLength := distance2D wrist middleTip
  let indexMCP := hand 5
  let pinkyMCP := hand 17
  let palmWidth := distance2D indexMCP pinkyMCP
  let indexTip := hand 8
  let pinkyTip := hand 20
  let thumbTip := hand 4
  let minX := min (min (min (min wrist.x middleTip.x) indexTip.x) pinkyTip.x) thumbTip.x
  let maxX := max (max (max (max wrist.x middleTip.x) indexTip.x) pinkyTip.x) thumbTip.x
  let minY := min (min (min (min wrist.y middleTip.y) indexTip.y) pinkyTip.y) thumbTip.y
  let maxY := max (max (max (max wrist.y middleTip.y) indexTip.y) pinkyTip.y) thumbTip.y
  let diagonal := Real.sqrt ((maxX - minX) ^ 2 + (maxY - minY) ^ 2)
  (palmWidth * 2.5 + handLength * 0.8 + diagonal * 0.5) / 3

/-- part_009 lines 99-104: depth from apparent hand size, inverted and
clamped into [0, 1]:
`1 - Math.min(1, Math.max(0, (size - MIN)/(MAX - MIN)))`. -/
def calculateHandDepth (hand : Hand) : ℝ :=
  1 - min 1 (max 0 ((combinedHandSize hand - MIN_HAND_SIZE) / (MAX_HAND_SIZE - MIN_HAND_SIZE)))

/-- part_009 lines 112-126: pinch-tightness depth refinement, clamped into
[0, 1]. -/
def calculatePinchDepthAdjustment (hand : Hand) : ℝ :=
  let pinchDist := distance2D (hand 4) (hand 8)
  min 1 (max 0 ((pinchDist - 0.02) / (0.10 - 0.02)))

end

/-- part_009 line 159: `indexTip.y > indexPIP.y - 0.02` (finger curled). -/
def indexCurled (hand : Hand) : Prop := (hand 8).y > (hand 6).y - 0.02

/-- part_009 line 160: `middleTip.y > middlePIP.y - 0.02`. -/
def middleCurled (hand : Hand) : Prop := (hand 12).y > (hand 10).y - 0.02

/-- part_009 line 161: `ringTip.y > ringPIP.y - 0.02`. -/
def ringCurled (hand : Hand) : Prop := (hand 16).y > (hand 14).y - 0.02

/-- part_009 line 162: `pinkyTip.y > pinkyPIP.y - 0.02`. -/
def pinkyCurled (hand : Hand) : Prop := (hand 20).y > (hand 18).y - 0.02

/-- Models `[a, b, c, d].filter(Boolean).length` summand: 1 if the condition
holds, else 0. -/
noncomputable def boolCount (p : Prop) : ℕ := if p then 1 else 0

/-- part_009 line 177: `curledCount`, the number of curled non-thumb
fingers. -/
noncomputable def curledCount (hand : Hand) : ℕ :=
  boolCount (indexCurled hand) + boolCount (middleCurled hand) +
    boolCount (ringCurled hand) + boolCount (pinkyCurled hand)

/-- part_009 lines 164-170: all four fingertips within their per-finger
maximum distance from the palm reference point `hand[9]`:
`indexToPalm < 0.15 && middleToPalm < 0.12 && ringToPalm < 0.15 &&
pinkyToPalm < 0.18`. -/
def tipsCloseToPalm (hand : Hand) : Prop :=
  distance3D (hand 8) (hand 9) < 0.15 ∧ distance3D (hand 12) (hand 9) < 0.12 ∧
    distance3D (hand 16) (hand 9) < 0.15 ∧ distance3D (hand 20) (hand 9) < 0.18

/-- part_009 lines 172-174: index-to-pinky fingertip spread below 0.15. -/
def tipsCompact (hand : Hand) : Prop := distance3D (hand 8) (hand 20) < 0.15

/-- `checkFist` (part_009 lines 132-181): at least 3 fingers curled AND
(tips close to palm OR tips compact). -/
def checkFist (hand : Hand) : Prop :=
  3 ≤ curledCount hand ∧ (tipsCloseToPalm hand ∨ tipsCompact hand)

/-- part_009 line 217: the thumb-tip-to-index-tip 3D distance. -/
noncomputable def pinchDistance (hand : Hand) : ℝ := distance3D (hand 4) (hand 8)

/-- part_009 line 214: the `isFistGesture` flag (fist checked first). -/
def classifiedFist (hand : Hand) : Prop := checkFist hand

/-- part_009 line 218: `isPinch = !isFistGesture && pinchDistance < PINCH_THRESHOLD`. -/
def classifiedPinch (hand : Hand) : Prop :=
  ¬ checkFist hand ∧ pinchDistance hand < PINCH_THRESHOLD

noncomputable section

/-- part_009 lines 232-237: depth, refined by pinch tightness only while
pinching (70% size-based, 30% pinch-based). -/
def finalDepth (hand : Hand) : ℝ :=
  if classifiedPinch hand then
    calculateHandDepth hand * 0.7 + calculatePinchDepthAdjustment hand * 0.3
  else calculateHandDepth hand

/-- part_009 lines 240-242: raw cursor x (pinch midpoint while pinching,
palm center otherwise). -/
def targetX (hand : Hand) : ℝ :=
  if classifiedPinch hand then ((hand 4).x + (hand 8).x) / 2 else (hand 9).x

/-- part_009 lines 244-246: raw cursor y. -/
def targetY (hand : Hand) : ℝ :=
  if classifiedPinch hand then ((hand 4).y + (hand 8).y) / 2 else (hand 9).y

/-- `expandRange` (part_009 lines 186-190): expand around the center and
clamp into [0, 1]. -/
def expandRange (value center expansion : ℝ) : ℝ :=
  max 0 (min 1 (center + (value - center) * expansion))

/-- part_009 line 249: `expandRange(1 - targetX, 0.5, 1.5)` (mirrored). -/
def expandedX (hand : Hand) : ℝ := expandRange (1 - targetX hand) 0.5 1.5

/-- part_009 line 250: `expandRange(1 - targetY, 0.5, 1.5)`. -/
def expandedY (hand : Hand) : ℝ := expandRange (1 - targetY hand) 0.5 1.5

/-- part_009 lines 253-257: the smoothed cursor update for one frame with a
detected hand (`lastPositionRef` exponential smoothing; depth uses the slower
factor). -/
def smoothStep (prev : Cursor) (hand : Hand) : Cursor :=
  { x := lerp prev.x (expandedX hand) LERP_FACTOR
    y := lerp prev.y (expandedY hand) LERP_FACTOR
    z := lerp prev.z (finalDepth hand) LERP_FACTOR_DEPTH }

/-- `processLandmarks` position output (part_009 lines 195-273): with no
landmarks the cursor is left at its last value (lines 196-202); with a hand
the smoothed update runs. -/
def processFrame (prev : Cursor) (frame : Option Hand) : Cursor :=
  match frame with
  | none => prev
  | some hand => smoothStep prev hand

end

/-! ## Claim theorems -/

/-- C4: if the candidate finder keeps returning the same non-null id, the lock
state remains CANDIDATE (same candidate, dwell start preserved) at every frame
where the elapsed hover time is strictly below `LOCK_TIME`, and transitions to
LOCKED at the first frame where the elapsed hover time reaches `LOCK_TIME`. -/
theorem candidate_dwell_locks (s : LockState) (i : LockInput) (c : OrbId)
    (hlock : s.locked = none) (hcand : s.candidate = some c)
    (hgrab : i.grabbedOrbId = none) (htrack : i.isTracking = true)
    (hcam : i.cameraModeCamera = false) (hclosest : i.currentClosest = some c) :
    (i.now - s.start < LOCK_TIME →
      (lockFrame s i).locked = none ∧ (lockFrame s i).candidate = some c ∧
        (lockFrame s i).start = s.start) ∧
    (LOCK_TIME ≤ i.now - s.start →
      (lockFrame s i).locked = some c ∧ (lockFrame s i).candidate = none) := by
  constructor
  · intro h
    simp [lockFrame, hgrab, htrack, hcam, hlock, hclosest, hcand, not_le.mpr h]
  · intro h
    simp [lockFrame, hgrab, htrack, hcam, hlock, hclosest, hcand, h]

/-- C4 witness: a concrete run; at 100 ms of hover the candidate is kept, at
exactly 250 ms the lock is acquired. -/
theorem candidate_dwell_locks_witness :
    (lockFrame ⟨none, some 7, 0, some 7⟩ ⟨none, true, false, 100, some 7, false, 0⟩).candidate
        = some 7 ∧
    (lockFrame ⟨none, some 7, 0, some 7⟩ ⟨none, true, false, 250, some 7, false, 0⟩).locked
        = some 7 :=
  ⟨((candidate_dwell_locks ⟨none, some 7, 0, some 7⟩ ⟨none, true, false, 100, some 7, false, 0⟩
      7 rfl rfl rfl rfl rfl rfl).1 (by norm_num [LOCK_TIME])).2.1,
   ((candidate_dwell_locks ⟨none, some 7, 0, some 7⟩ ⟨none, true, false, 250, some 7, false, 0⟩
      7 rfl rfl rfl rfl rfl rfl).2 (by norm_num [LOCK_TIME])).1⟩

/-- C2 counterexample: the acquisition threshold is NOT strictly below the
release threshold at every camera distance: for a planet of visual size 0.5
(an actual orb size in the scene) at camera distance 10, the acquisition
threshold is 0.5, strictly above the release threshold 0.3. -/
theorem acquisition_exceeds_release_cex :
    selectionThreshold 0.5 10 = 0.5 ∧ unlockThreshold < selectionThreshold 0.5 10 := by
  constructor <;> norm_num [selectionThreshold, unlockThreshold]

/-- C2 amended: the asymmetric-hysteresis inequality `acquisition < release`
does not hold for every object at every camera distance (it fails for objects
close to the camera, where the distance factor inflates the acquisition
threshold past 0.3); what does hold is the release side of the hysteresis: a
LOCKED active object whose cursor-to-object screen distance is at most the
release threshold 0.3 — in particular any object sitting between the two
thresholds when the acquisition threshold is below 0.3 — never transitions to
UNLOCKED in that frame. -/
theorem locked_object_keeps_lock_below_release (s : LockState) (i : LockInput) (l : OrbId)
    (hlock : s.locked = some l) (hgrab : i.grabbedOrbId = none)
    (htrack : i.isTracking = true) (hcam : i.cameraModeCamera = false)
    (hact : i.lockedOrbActive = true) (hdist : i.lockedDist ≤ unlockThreshold) :
    (lockFrame s i).locked = some l := by
  simp [lockFrame, hgrab, htrack, hcam, hlock, hact, not_lt.mpr hdist]

/-- C2 amended witness: a locked orb at screen distance 0.25 — between the
far-object acquisition threshold (e.g. 0.23 at planet size 0.3, distance 20)
and the release threshold 0.3 — stays locked. -/
theorem locked_object_keeps_lock_below_release_witness :
    selectionThreshold 0.3 20 < 0.25 ∧
    (lockFrame ⟨some 4, none, 0, some 4⟩ ⟨none, true, false, 500, none, true, 0.25⟩).locked
        = some 4 :=
  ⟨by norm_num [selectionThreshold],
   locked_object_keeps_lock_below_release ⟨some 4, none, 0, some 4⟩
     ⟨none, true, false, 500, none, true, 0.25⟩ 4 rfl rfl rfl rfl rfl
     (by norm_num [unlockThreshold])⟩

/-- C1 counterexample: hand tracking drops (isTracking = false) while orb 2 is
grabbed: the SoundOrb frame leaves the orb grabbed and persists nothing (the
whole grab/release block is gated by `isTracking`), and the lock useFrame
keeps the hand's lock on the grabbed orb instead of resetting it to UNLOCKED
(the `grabbedOrbId` early return precedes the `!isTracking` reset). -/
theorem tracking_loss_keeps_grab_cex :
    (grabFrame 2 (some 2) ⟨false, true, false, false, false⟩).grabbedAfter = some 2 ∧
    (grabFrame 2 (some 2) ⟨false, true, false, false, false⟩).positionPersisted = false ∧
    (lockFrame ⟨some 2, none, 0, some 2⟩ ⟨some 2, false, false, 0, none, true, 0⟩).locked
        = some 2 := by
  refine ⟨rfl, rfl, rfl⟩

/-- C1 amended: loss of hand tracking while an object is grabbed does NOT
release it in that frame: while `isTracking` is false the grab/release block
is skipped entirely (no release, no position persistence) and the lock
useFrame keeps the lock on the grabbed orb (its grabbed-orb early return comes
before the tracking check); the release — with the last interpolated position
persisted via `updateOrbPosition` — happens only at the first frame where
tracking is active and the pinch is no longer held. -/
theorem tracking_loss_release_behavior (oid : OrbId) (grabbed : Option OrbId)
    (i j : GrabInput) (s : LockState) (li : LockInput) (g : OrbId)
    (huntracked : i.isTracking = false)
    (hgrabbed : li.grabbedOrbId = some g)
    (htrack : j.isTracking = true) (hactive : j.orbActive = true)
    (hnopinch : j.isPinching = false) (hcam : j.cameraModeCamera = false) :
    grabFrame oid grabbed i = ⟨grabbed, false⟩ ∧
    (lockFrame s li).locked = some g ∧
    grabFrame oid (some oid) j = ⟨none, true⟩ := by
  refine ⟨?_, ?_, ?_⟩
  · unfold grabFrame
    rw [huntracked]
    simp
  · unfold lockFrame
    rw [hgrabbed]
  · unfold grabFrame
    rw [htrack, hactive, hnopinch, hcam]
    simp

/-- C1 amended witness: concrete instance of the three behaviors for orb 2. -/
theorem tracking_loss_release_behavior_witness :
    grabFrame 2 (some 2) ⟨false, true, true, true, false⟩ = ⟨some 2, false⟩ ∧
    (lockFrame ⟨some 2, none, 0, some 2⟩ ⟨some 2, false, false, 9, none, true, 0⟩).locked
        = some 2 ∧
    grabFrame 2 (some 2) ⟨true, true, false, false, false⟩ = ⟨none, true⟩ :=
  tracking_loss_release_behavior 2 (some 2) ⟨false, true, true, true, false⟩
    ⟨true, true, false, false, false⟩ ⟨some 2, none, 0, some 2⟩
    ⟨some 2, false, false, 9, none, true, 0⟩ 2 rfl rfl rfl rfl rfl rfl

/-- C5: for a grabbed object and any cursor depth in the cursor's normalized
range [0, 1], the depth-mapped target orbital radius lies in
[MIN_ORBIT_RADIUS, MAX_ORBIT_RADIUS]; depth 0 gives exactly MIN_ORBIT_RADIUS
and depth 1 exactly MAX_ORBIT_RADIUS; and the raycast variant's clamped radius
lies in the same range for every plane-intersection distance. -/
theorem grab_radius_in_range (z : ℝ) (h0 : 0 ≤ z) (h1 : z ≤ 1) :
    (MIN_ORBIT_RADIUS ≤ grabTargetRadius z ∧ grabTargetRadius z ≤ MAX_ORBIT_RADIUS) ∧
    grabTargetRadius 0 = MIN_ORBIT_RADIUS ∧ grabTargetRadius 1 = MAX_ORBIT_RADIUS ∧
    ∀ d : ℝ, MIN_ORBIT_RADIUS ≤ clampedRadius d ∧ clampedRadius d ≤ MAX_ORBIT_RADIUS := by
  refine ⟨⟨?_, ?_⟩, ?_, ?_, fun d => ⟨le_max_left _ _, ?_⟩⟩
  · unfold grabTargetRadius MIN_ORBIT_RADIUS MAX_ORBIT_RADIUS
    nlinarith
  · unfold grabTargetRadius MIN_ORBIT_RADIUS MAX_ORBIT_RADIUS
    nlinarith
  · norm_num [grabTargetRadius, MIN_ORBIT_RADIUS, MAX_ORBIT_RADIUS]
  · norm_num [grabTargetRadius, MIN_ORBIT_RADIUS, MAX_ORBIT_RADIUS]
  · unfold clampedRadius
    exact max_le (by norm_num [MIN_ORBIT_RADIUS, MAX_ORBIT_RADIUS]) (min_le_left _ _)

/-- C5 witness: cursor depth 1/2 maps to radius 7, inside [2, 12]. -/
theorem grab_radius_in_range_witness :
    grabTargetRadius (1 / 2) = 7 ∧ MIN_ORBIT_RADIUS ≤ grabTargetRadius (1 / 2) ∧
      grabTargetRadius (1 / 2) ≤ MAX_ORBIT_RADIUS :=
  ⟨by norm_num [grabTargetRadius, MIN_ORBIT_RADIUS, MAX_ORBIT_RADIUS],
    (grab_radius_in_range (1 / 2) (by norm_num) (by norm_num)).1.1,
    (grab_radius_in_range (1 / 2) (by norm_num) (by norm_num)).1.2⟩

/-- C6 counterexample: the loop normalization is into [-π, π], not (-π, π]:
for an angle delta of exactly -π (current 0, target -π) neither loop runs, the
delta stays -π — which is not in (-π, π] — and the interpolation moves by the
-π direction. -/
theorem lerpAngle_boundary_cex :
    normalizeAngleDiff (-Real.pi - 0) = -Real.pi ∧
    lerpAngle 0 (-Real.pi) 1 = -Real.pi ∧
    -Real.pi ∉ Set.Ioc (-Real.pi) Real.pi := by
  have hpi := Real.pi_pos
  have h1 : normalizeAngleDiff (-Real.pi - 0) = -Real.pi := by
    unfold normalizeAngleDiff
    rw [if_neg (not_lt.mpr (by linarith)), if_neg (not_lt.mpr (by linarith))]
    ring
  refine ⟨h1, ?_, ?_⟩
  · unfold lerpAngle
    rw [h1]
    ring
  · simp [Set.mem_Ioc]

/-- C6 amended: the per-step angle delta is normalized into the closed
interval [-π, π] (the -π endpoint is reachable, so the interval is not the
half-open (-π, π]); the normalization shifts by whole turns only, and the
cited case holds: interpolating the orbit angle from 3.1 rad toward -3.0 rad
moves forward through the ±π boundary with a step of magnitude below 0.3 rad
(in fact ≈ 0.0366 rad), never the ≈ 6.1 rad long way. -/
theorem lerpAngle_shortest_path :
    (∀ current target : ℝ,
        normalizeAngleDiff (target - current) ∈ Set.Icc (-Real.pi) Real.pi ∧
        ∃ k : ℤ, normalizeAngleDiff (target - current) = (target - current) - Real.pi * 2 * k) ∧
    0 < lerpAngle 3.1 (-3.0) 0.2 - 3.1 ∧ lerpAngle 3.1 (-3.0) 0.2 - 3.1 < 0.3 := by
  refine ⟨fun current target =>
    ⟨normalizeAngleDiff_mem_Icc _, normalizeAngleDiff_sub_int_mul _⟩, ?_⟩
  have hgt : (3.14 : ℝ) < Real.pi := Real.pi_gt_d2
  have hlt : Real.pi < 3.15 := Real.pi_lt_d2
  have hceil : ⌈(-Real.pi - (-6.1 : ℝ)) / (Real.pi * 2)⌉ = 1 := by
    rw [Int.ceil_eq_iff]
    constructor
    · push_cast
      have hp : (0 : ℝ) < (-Real.pi - -6.1) / (Real.pi * 2) :=
        div_pos (by linarith) (by linarith)
      linarith
    · push_cast
      rw [div_le_one (by linarith)]
      linarith
  have hnorm : normalizeAngleDiff (-6.1 : ℝ) = -6.1 + Real.pi * 2 := by
    unfold normalizeAngleDiff
    rw [if_neg (not_lt.mpr (by linarith)), if_pos (by linarith), hceil]
    push_cast
    ring
  have harg : (-3.0 : ℝ) - 3.1 = -6.1 := by norm_num
  unfold lerpAngle
  rw [harg, hnorm]
  constructor <;> nlinarith

/-- The per-orb loop of `getClosestOrbForHand` never stores an excluded id:
the exclusion guard precedes the score update. -/
theorem considerOrb_not_excluded (excl : List OrbId) (acc : Option (OrbId × ℚ)) (o : OrbInfo)
    (hacc : ∀ b sc, acc = some (b, sc) → b ∉ excl) (b : OrbId) (sc : ℚ)
    (h : considerOrb excl acc o = some (b, sc)) : b ∉ excl := by
  unfold considerOrb at h
  split_ifs at h with h1 h2 h3 h4
  · exact hacc b sc h
  · exact hacc b sc h
  · exact hacc b sc h
  · exact hacc b sc h
  · cases hx : acc with
    | none =>
      rw [hx] at h
      simp only [Option.some.injEq, Prod.mk.injEq] at h
      rw [← h.1]
      exact h2
    | some p =>
      obtain ⟨bid, bsc⟩ := p
      rw [hx] at h
      by_cases hcmp : orbScore o < bsc
      · simp only [hcmp, if_true, Option.some.injEq, Prod.mk.injEq] at h
        rw [← h.1]
        exact h2
      · simp only [hcmp, if_false, Option.some.injEq, Prod.mk.injEq] at h
        exact h.1 ▸ hacc bid bsc (by rw [hx])

/-- Folding the loop preserves the not-excluded invariant. -/
theorem foldl_not_excluded (excl : List OrbId) (orbs : List OrbInfo)
    (acc : Option (OrbId × ℚ)) (hacc : ∀ b sc, acc = some (b, sc) → b ∉ excl) :
    ∀ b sc, orbs.foldl (considerOrb excl) acc = some (b, sc) → b ∉ excl := by
  induction orbs generalizing acc with
  | nil => simpa using hacc
  | cons o rest ih =>
    intro b sc h
    exact ih _ (fun b₁ sc₁ => considerOrb_not_excluded excl acc o hacc b₁ sc₁) b sc h

/-- C7: the exclusivity mechanism of the grab system.  (1) the candidate
search never returns an id from the exclusion list (the set of ids already
grabbed by other hands); (2) in particular, a search over a scene whose only
orb is grabbed elsewhere returns null; (3) a player grabbing an orb that no
other player holds (which is all `getClosestOrbForHand` can deliver, by (1))
preserves the no-shared-`grabbedId` invariant of the `grabbedOrbs` map, as
does (4) any release. -/
theorem grabbed_orbs_exclusive (orbs : List OrbInfo) (excl : List OrbId) (i : OrbId)
    (hi : i ∈ excl) (m : GrabbedMap) (p : PlayerId) (oid : OrbId)
    (hm : ExclusiveGrabs m) (hnot : oid ∉ m.map Prod.snd) (o : OrbInfo) (ho : o.oid ∈ excl) :
    getClosestOrbForHand orbs excl ≠ some i ∧
    getClosestOrbForHand [o] excl = none ∧
    ExclusiveGrabs (setGrabbedOrbId m p (some oid)) ∧
    ∀ q : PlayerId, ExclusiveGrabs (setGrabbedOrbId m q none) := by
  refine ⟨?_, ?_, ?_, ?_⟩
  · intro h
    unfold getClosestOrbForHand at h
    cases hx : List.foldl (considerOrb excl) none orbs with
    | none => rw [hx] at h; simp at h
    | some pr =>
      obtain ⟨b, sc⟩ := pr
      rw [hx] at h
      simp at h
      exact foldl_not_excluded excl orbs none (by intro b₁ sc₁ hc; simp at hc) b sc hx (h ▸ hi)
  · unfold getClosestOrbForHand
    have hc : considerOrb excl none o = none := by
      unfold considerOrb
      by_cases h1 : o.active = false
      · rw [if_pos h1]
      · rw [if_neg h1, if_pos ho]
    simp [hc]
  · intro p₁ p₂ ov h₁ h₂
    unfold setGrabbedOrbId at h₁ h₂
    rw [List.mem_cons] at h₁ h₂
    rcases h₁ with h₁ | h₁ <;> rcases h₂ with h₂ | h₂
    · rw [Prod.mk.injEq] at h₁ h₂
      rw [h₁.1, h₂.1]
    · rw [Prod.mk.injEq] at h₁
      exfalso
      apply hnot
      rw [← h₁.2]
      exact List.mem_map.mpr ⟨(p₂, ov), List.mem_of_mem_filter h₂, rfl⟩
    · rw [Prod.mk.injEq] at h₂
      exfalso
      apply hnot
      rw [← h₂.2]
      exact List.mem_map.mpr ⟨(p₁, ov), List.mem_of_mem_filter h₁, rfl⟩
    · exact hm p₁ p₂ ov (List.mem_of_mem_filter h₁) (List.mem_of_mem_filter h₂)
  · intro q p₁ p₂ ov h₁ h₂
    unfold setGrabbedOrbId at h₁ h₂
    exact hm p₁ p₂ ov (List.mem_of_mem_filter h₁) (List.mem_of_mem_filter h₂)

/-- C7 witness: with orb 5 grabbed elsewhere (exclusion list [5]), a search
over a scene containing only orb 5 returns null; grabbing orb 4 for player 1
on top of the map {0 ↦ 3} keeps grabs exclusive, as does any release. -/
theorem grabbed_orbs_exclusive_witness :
    getClosestOrbForHand [⟨5, true, 0, 0, 0.5, 20⟩] [5] ≠ some 5 ∧
    getClosestOrbForHand [⟨5, true, 0, 0, 0.5, 20⟩] [5] = none ∧
    ExclusiveGrabs (setGrabbedOrbId [(0, 3)] 1 (some 4)) ∧
    ∀ q : PlayerId, ExclusiveGrabs (setGrabbedOrbId [(0, 3)] q none) :=
  grabbed_orbs_exclusive [⟨5, true, 0, 0, 0.5, 20⟩] [5] 5 (by simp) [(0, 3)] 1 4
    (by
      intro p₁ p₂ ov h₁ h₂
      simp only [List.mem_singleton, Prod.mk.injEq] at h₁ h₂
      rw [h₁.1, h₂.1])
    (by simp) ⟨5, true, 0, 0, 0.5, 20⟩ (by simp)

/-! ### Helper lemmas for evaluating the classifier on concrete hands -/

/-- The distance from a landmark to itself is zero. -/
theorem distance3D_self (p : Pt) : distance3D p p = 0 := by
  simp [distance3D]

/-- The 2D distance from a landmark to itself is zero. -/
theorem distance2D_self (p : Pt) : distance2D p p = 0 := by
  simp [distance2D]

/-- Distance between two landmarks differing only in y. -/
theorem distance3D_same_xz (x z y₁ y₂ : ℝ) :
    distance3D ⟨x, y₁, z⟩ ⟨x, y₂, z⟩ = |y₁ - y₂| := by
  simp [distance3D, Real.sqrt_sq_eq_abs]

/-- A degenerate hand frame with all 21 landmarks at the same point: every
finger reads as curled and at palm distance zero, so it is a fist, and the
thumb-to-index distance 0 also satisfies the pinch condition. -/
noncomputable def constHand : Hand := fun _ => ⟨0.5, 0.5, 0⟩

/-- `checkFist` holds on the degenerate hand. -/
theorem checkFist_constHand : checkFist constHand := by
  have hi : indexCurled constHand := by norm_num [indexCurled, constHand]
  have hm : middleCurled constHand := by norm_num [middleCurled, constHand]
  have hr : ringCurled constHand := by norm_num [ringCurled, constHand]
  have hp : pinkyCurled constHand := by norm_num [pinkyCurled, constHand]
  refine ⟨?_, Or.inl ?_⟩
  · simp [curledCount, boolCount, hi, hm, hr, hp]
  · norm_num [tipsCloseToPalm, constHand, distance3D_self]

/-- The pinch geometric condition also holds on the degenerate hand. -/
theorem pinchDistance_constHand_lt : pinchDistance constHand < PINCH_THRESHOLD := by
  simp only [pinchDistance, constHand, distance3D_self, PINCH_THRESHOLD]
  norm_num

/-- C3: any HandFrame satisfying both the fist geometric condition and the
pinch geometric condition (thumb-to-index 3D distance below the threshold) is
classified as a fist and NOT as a pinch; moreover a pinch classification is
only ever emitted when the fist check fails. -/
theorem fist_wins_over_pinch (hand : Hand)
    (hfist : checkFist hand) (hpinch : pinchDistance hand < PINCH_THRESHOLD) :
    classifiedFist hand ∧ ¬ classifiedPinch hand ∧
      ∀ other : Hand, classifiedPinch other → ¬ checkFist other :=
  ⟨hfist, fun hcp => hcp.1 hfist, fun _ hcp => hcp.1⟩

/-- C3 witness: the degenerate hand satisfies both geometric conditions and is
classified fist, not pinch. -/
theorem fist_wins_over_pinch_witness :
    classifiedFist constHand ∧ ¬ classifiedPinch constHand ∧
      ∀ other : Hand, classifiedPinch other → ¬ checkFist other :=
  fist_wins_over_pinch constHand checkFist_constHand pinchDistance_constHand_lt

/-! ### C9: the fist formula -/

/-- The claim's fist predicate, written from the claim's own words: at least
3 of the 4 non-thumb fingertips each satisfy BOTH the curl condition and the
per-finger palm-distance bound. -/
def fistClaim (hand : Hand) : Prop :=
  3 ≤ boolCount (indexCurled hand ∧ distance3D (hand 8) (hand 9) < 0.15) +
      boolCount (middleCurled hand ∧ distance3D (hand 12) (hand 9) < 0.12) +
      boolCount (ringCurled hand ∧ distance3D (hand 16) (hand 9) < 0.15) +
      boolCount (pinkyCurled hand ∧ distance3D (hand 20) (hand 9) < 0.18)

/-- A hand whose index, middle and ring tips are curled and 0.05 from the
palm, and whose pinky tip is curled but 0.3 from the palm with the index and
pinky tips 0.25 apart. -/
noncomputable def c9hand : Hand := fun i =>
  if i.val = 8 ∨ i.val = 12 ∨ i.val = 16 then ⟨0.5, 0.55, 0⟩
  else if i.val = 20 then ⟨0.5, 0.8, 0⟩
  else ⟨0.5, 0.5, 0⟩

/-- C9 counterexample: on `c9hand` three fingers (index, middle, ring) each
satisfy both the curl and the palm-distance condition, so the claim's 3-of-4
predicate classifies it a fist — but `checkFist` does not: its palm-distance
check is an all-four conjunction (the pinky at distance 0.3 breaks it) with a
tip-spread disjunct (0.25 breaks that too), not a per-finger 3-of-4 pairing. -/
theorem checkFist_differs_from_claim_cex : fistClaim c9hand ∧ ¬ checkFist c9hand := by
  have h89 : distance3D (c9hand 8) (c9hand 9) < 0.15 := by
    show distance3D ⟨0.5, 0.55, 0⟩ ⟨0.5, 0.5, 0⟩ < 0.15
    rw [distance3D_same_xz, abs_lt]
    constructor <;> norm_num
  have h129 : distance3D (c9hand 12) (c9hand 9) < 0.12 := by
    show distance3D ⟨0.5, 0.55, 0⟩ ⟨0.5, 0.5, 0⟩ < 0.12
    rw [distance3D_same_xz, abs_lt]
    constructor <;> norm_num
  have h169 : distance3D (c9hand 16) (c9hand 9) < 0.15 := by
    show distance3D ⟨0.5, 0.55, 0⟩ ⟨0.5, 0.5, 0⟩ < 0.15
    rw [distance3D_same_xz, abs_lt]
    constructor <;> norm_num
  have h209 : ¬ distance3D (c9hand 20) (c9hand 9) < 0.18 := by
    show ¬ distance3D ⟨0.5, 0.8, 0⟩ ⟨0.5, 0.5, 0⟩ < 0.18
    rw [distance3D_same_xz, show (0.8 : ℝ) - 0.5 = 0.3 by norm_num,
      abs_of_pos (by norm_num)]
    norm_num
  have h820 : ¬ tipsCompact c9hand := by
    show ¬ distance3D ⟨0.5, 0.55, 0⟩ ⟨0.5, 0.8, 0⟩ < 0.15
    rw [distance3D_same_xz, show (0.55 : ℝ) - 0.8 = -0.25 by norm_num, abs_neg,
      abs_of_pos (by norm_num)]
    norm_num
  have hic : indexCurled c9hand := by
    show (0.55 : ℝ) > 0.5 - 0.02
    norm_num
  have hmc : middleCurled c9hand := by
    show (0.55 : ℝ) > 0.5 - 0.02
    norm_num
  have hrc : ringCurled c9hand := by
    show (0.55 : ℝ) > 0.5 - 0.02
    norm_num
  constructor
  · unfold fistClaim
    rw [boolCount, if_pos ⟨hic, h89⟩]
    rw [boolCount, if_pos ⟨hmc, h129⟩]
    rw [boolCount, if_pos ⟨hrc, h169⟩]
    rw [boolCount, if_neg (fun hh => h209 hh.2)]
  · rintro ⟨-, hclose | hcompact⟩
    · exact h209 hclose.2.2.2
    · exact h820 hcompact

/-- The 3-of-4 quorum as an explicit disjunction. -/
theorem three_le_boolCount_iff (a b c d : Prop) :
    3 ≤ boolCount a + boolCount b + boolCount c + boolCount d ↔
      (a ∧ b ∧ c) ∨ (a ∧ b ∧ d) ∨ (a ∧ c ∧ d) ∨ (b ∧ c ∧ d) := by
  by_cases ha : a <;> by_cases hb : b <;> by_cases hc : c <;> by_cases hd : d <;>
    simp [boolCount, ha, hb, hc, hd]

/-- C9 amended: a hand is classified fist exactly when at least 3 of the 4
non-thumb fingers satisfy the curl condition AND, separately, either all four
fingertips lie within their per-finger maximum distance from the palm
reference point, or the index-to-pinky tip spread is below 0.15 — the
palm-distance bound is a joint all-four condition (with a compactness
fallback), not paired per-finger into the 3-of-4 quorum. -/
theorem checkFist_characterization (hand : Hand) :
    checkFist hand ↔
      ((indexCurled hand ∧ middleCurled hand ∧ ringCurled hand) ∨
        (indexCurled hand ∧ middleCurled hand ∧ pinkyCurled hand) ∨
        (indexCurled hand ∧ ringCurled hand ∧ pinkyCurled hand) ∨
        (middleCurled hand ∧ ringCurled hand ∧ pinkyCurled hand)) ∧
      (tipsCloseToPalm hand ∨ tipsCompact hand) := by
  unfold checkFist curledCount
  rw [three_le_boolCount_iff]

/-! ### C8: feeding the same frame twice -/

/-- The degenerate hand's combined size is 0 (all landmarks coincide). -/
theorem combinedHandSize_constHand : combinedHandSize constHand = 0 := by
  unfold combinedHandSize
  simp [constHand, distance2D_self]

/-- The degenerate hand is not classified as pinching (fist wins). -/
theorem not_classifiedPinch_constHand : ¬ classifiedPinch constHand :=
  fun h => h.1 checkFist_constHand

/-- Depth of the degenerate hand: combined size 0 is clamped to the far end,
giving depth 1. -/
theorem finalDepth_constHand : finalDepth constHand = 1 := by
  unfold finalDepth
  rw [if_neg not_classifiedPinch_constHand]
  unfold calculateHandDepth
  rw [combinedHandSize_constHand]
  rw [show (0 - MIN_HAND_SIZE) / (MAX_HAND_SIZE - MIN_HAND_SIZE) = -(1 / 3 : ℝ) by
    norm_num [MIN_HAND_SIZE, MAX_HAND_SIZE]]
  rw [max_eq_left (by norm_num), min_eq_right (by norm_num)]
  norm_num

/-- C8 counterexample: feeding the identical HandFrame twice does NOT
reproduce the first cursor output: on the degenerate hand the depth channel
moves from 0.5 to 0.6 on the first call and on to 0.68 on the second call with
the very same frame — the exponential smoothing keeps advancing toward the
target, so the position output (not merely the velocity) differs between the
two calls. -/
theorem classifier_not_idempotent_cex :
    (smoothStep ⟨0.5, 0.5, 0.5⟩ constHand).z = 0.6 ∧
    (smoothStep (smoothStep ⟨0.5, 0.5, 0.5⟩ constHand) constHand).z = 0.68 ∧
    (smoothStep (smoothStep ⟨0.5, 0.5, 0.5⟩ constHand) constHand).z ≠
      (smoothStep ⟨0.5, 0.5, 0.5⟩ constHand).z := by
  have hz : ∀ p : Cursor, (smoothStep p constHand).z = lerp p.z 1 LERP_FACTOR_DEPTH := by
    intro p
    simp [smoothStep, finalDepth_constHand]
  have h1 : (smoothStep ⟨0.5, 0.5, 0.5⟩ constHand).z = 0.6 := by
    rw [hz]
    norm_num [lerp, LERP_FACTOR_DEPTH]
  have h2 : (smoothStep (smoothStep ⟨0.5, 0.5, 0.5⟩ constHand) constHand).z = 0.68 := by
    rw [hz, h1]
    norm_num [lerp, LERP_FACTOR_DEPTH]
  exact ⟨h1, h2, by rw [h1, h2]; norm_num⟩

/-- A smoothing step is a fixed point exactly at the target. -/
theorem lerp_fixed (a t f : ℝ) (hf : f ≠ 0) : lerp a t f = a ↔ a = t := by
  unfold lerp
  constructor
  · intro h
    have h0 : (t - a) * f = 0 := by linarith
    rcases mul_eq_zero.mp h0 with h1 | h1
    · linarith
    · exact absurd h1 hf
  · intro h
    rw [h]
    ring

/-- C8 amended: on the same frame twice, the gesture flags agree (they are
functions of the frame alone), but the cursor position is smoothed again
toward the same raw target; the second output equals the first exactly when
the first output already sits at the frame's raw target triple — so the
classifier is idempotent on position only at the smoothing fixed point, not in
general. -/
theorem classifier_second_output (prev : Cursor) (hand : Hand) :
    smoothStep (smoothStep prev hand) hand = smoothStep prev hand ↔
      smoothStep prev hand = ⟨expandedX hand, expandedY hand, finalDepth hand⟩ := by
  simp only [smoothStep, Cursor.mk.injEq]
  rw [lerp_fixed _ _ _ (by norm_num [LERP_FACTOR]),
    lerp_fixed _ _ _ (by norm_num [LERP_FACTOR]),
    lerp_fixed _ _ _ (by norm_num [LERP_FACTOR_DEPTH])]

/-! ### C10: the cursor stays in the unit range -/

/-- part_009 lines 17 and 29: the initial cursor value (0.5, 0.5, 0.5). -/
def initialCursor : Cursor := ⟨0.5, 0.5, 0.5⟩

/-- A convex smoothing step stays in [0, 1] when both endpoints and the factor
are in [0, 1]. -/
theorem lerp_mem_unit {a t f : ℝ} (ha : a ∈ Set.Icc (0 : ℝ) 1)
    (ht : t ∈ Set.Icc (0 : ℝ) 1) (hf : f ∈ Set.Icc (0 : ℝ) 1) :
    lerp a t f ∈ Set.Icc (0 : ℝ) 1 := by
  obtain ⟨ha0, ha1⟩ := Set.mem_Icc.mp ha
  obtain ⟨ht0, ht1⟩ := Set.mem_Icc.mp ht
  obtain ⟨hf0, hf1⟩ := Set.mem_Icc.mp hf
  rw [Set.mem_Icc]
  unfold lerp
  constructor <;> nlinarith

/-- `expandRange` always clamps into [0, 1]. -/
theorem expandRange_mem_unit (v c e : ℝ) : expandRange v c e ∈ Set.Icc (0 : ℝ) 1 := by
  rw [Set.mem_Icc]
  unfold expandRange
  exact ⟨le_max_left _ _, max_le (by norm_num) (min_le_left _ _)⟩

/-- The size-based depth estimate is clamped into [0, 1]. -/
theorem calculateHandDepth_mem_unit (hand : Hand) :
    calculateHandDepth hand ∈ Set.Icc (0 : ℝ) 1 := by
  rw [Set.mem_Icc]
  unfold calculateHandDepth
  set s := (combinedHandSize hand - MIN_HAND_SIZE) / (MAX_HAND_SIZE - MIN_HAND_SIZE) with hs
  have hub : min 1 (max 0 s) ≤ 1 := min_le_left _ _
  have hlb : (0 : ℝ) ≤ min 1 (max 0 s) := le_min zero_le_one (le_max_left _ _)
  constructor <;> linarith

/-- The pinch-tightness depth estimate is clamped into [0, 1]. -/
theorem calculatePinchDepthAdjustment_mem_unit (hand : Hand) :
    calculatePinchDepthAdjustment hand ∈ Set.Icc (0 : ℝ) 1 := by
  rw [Set.mem_Icc]
  unfold calculatePinchDepthAdjustment
  refine ⟨le_min zero_le_one (le_max_left _ _), min_le_left _ _⟩

/-- The blended final depth is in [0, 1]. -/
theorem finalDepth_mem_unit (hand : Hand) : finalDepth hand ∈ Set.Icc (0 : ℝ) 1 := by
  unfold finalDepth
  split_ifs with h
  · obtain ⟨a0, a1⟩ := Set.mem_Icc.mp (calculateHandDepth_mem_unit hand)
    obtain ⟨b0, b1⟩ := Set.mem_Icc.mp (calculatePinchDepthAdjustment_mem_unit hand)
    rw [Set.mem_Icc]
    constructor <;> nlinarith
  · exact calculateHandDepth_mem_unit hand

/-- C10: every cursor the classifier emits stays componentwise in [0, 1]: the
initial cursor is (0.5, 0.5, 0.5); on a frame with no hand the cursor is left
unchanged; and on a frame with a hand each component is a convex combination
of the previous in-range value and a clamped-in-range target — so the unit
bound is preserved by every update. -/
theorem cursor_stays_in_unit_range (prev : Cursor) (frame : Option Hand)
    (hx : prev.x ∈ Set.Icc (0 : ℝ) 1) (hy : prev.y ∈ Set.Icc (0 : ℝ) 1)
    (hz : prev.z ∈ Set.Icc (0 : ℝ) 1) :
    (initialCursor.x ∈ Set.Icc (0 : ℝ) 1 ∧ initialCursor.y ∈ Set.Icc (0 : ℝ) 1 ∧
      initialCursor.z ∈ Set.Icc (0 : ℝ) 1) ∧
    (processFrame prev frame).x ∈ Set.Icc (0 : ℝ) 1 ∧
    (processFrame prev frame).y ∈ Set.Icc (0 : ℝ) 1 ∧
    (processFrame prev frame).z ∈ Set.Icc (0 : ℝ) 1 := by
  refine ⟨⟨?_, ?_, ?_⟩, ?_⟩
  · rw [Set.mem_Icc]
    norm_num [initialCursor]
  · rw [Set.mem_Icc]
    norm_num [initialCursor]
  · rw [Set.mem_Icc]
    norm_num [initialCursor]
  · cases frame with
    | none => exact ⟨hx, hy, hz⟩
    | some hand =>
      have hf35 : LERP_FACTOR ∈ Set.Icc (0 : ℝ) 1 := by
        rw [Set.mem_Icc]
        norm_num [LERP_FACTOR]
      have hf20 : LERP_FACTOR_DEPTH ∈ Set.Icc (0 : ℝ) 1 := by
        rw [Set.mem_Icc]
        norm_num [LERP_FACTOR_DEPTH]
      refine ⟨lerp_mem_unit hx (expandRange_mem_unit _ _ _) hf35,
        lerp_mem_unit hy (expandRange_mem_unit _ _ _) hf35,
        lerp_mem_unit hz (finalDepth_mem_unit hand) hf20⟩

/-- C10 witness: starting from the initial cursor with the degenerate hand,
the updated cursor stays in the unit range. -/
theorem cursor_stays_in_unit_range_witness :
    (processFrame ⟨0.5, 0.5, 0.5⟩ (some constHand)).x ∈ Set.Icc (0 : ℝ) 1 ∧
    (processFrame ⟨0.5, 0.5, 0.5⟩ (some constHand)).y ∈ Set.Icc (0 : ℝ) 1 ∧
    (processFrame ⟨0.5, 0.5, 0.5⟩ (some constHand)).z ∈ Set.Icc (0 : ℝ) 1 :=
  (cursor_stays_in_unit_range ⟨0.5, 0.5, 0.5⟩ (some constHand)
    (by rw [Set.mem_Icc]; norm_num) (by rw [Set.mem_Icc]; norm_num)
    (by rw [Set.mem_Icc]; norm_num)).2

end SpaceMusic
